import Mathlib

/-!
Shallow embedding of the conversion logic of the PDFandPPT repository
(`src/pdf_to_ppt.py` and `src/convert_pdf2ppt.py`) and proofs about it.

Modelling conventions:
 - Python floats that only ever hold page dimensions and exact decimal
   constants are modelled as rationals (`ℚ`); the comparisons in the source
   are exact at these values.
 - Effectful steps (filesystem probes, subprocess runs, library calls that
   may raise) are modelled by oracles in an environment record; a function
   that performs effects additionally returns the list of effects it
   performed, in order.
 - Python exceptions raised by a collaborator are modelled as `Except` /
   `Option String` oracle outcomes; a `try/except` block maps an injected
   fault to the result of its handler, so the embedded functions are total.
 - Page indices and DPI values are modelled as `Nat` (the source only ever
   passes non-negative values on the code paths under scrutiny).
-/

namespace PdfPpt

/-- Source: `ConversionMethod` enum in `pdf_to_ppt.py`. -/
inductive ConversionMethod
  | pdf2pptx
  | pymupdf
  | imagemagick
deriving DecidableEq

/-- Source: the aspect-kind enum in `pdf_to_ppt.py` (constructors `STANDARD_4_3`,
`WIDESCREEN_16_9`, `CUSTOM`). -/
inductive AspectKind
  | standard43
  | widescreen169
  | custom
deriving DecidableEq

/-- The module-level availability flags of `pdf_to_ppt.py` (`PDF2PPTX_AVAILABLE`,
`PYMUPDF_AVAILABLE`, `PPTX_AVAILABLE`), computed once when the module is imported. -/
structure LibSnapshot where
  pdf2pptxAvail : Bool
  pymupdfAvail : Bool
  pptxAvail : Bool
deriving DecidableEq

/-- The state of the process environment at the moment a function is called:
which libraries would be importable right now, and whether the `convert`
probe (`convert --version` exits 0 with an ImageMagick banner) succeeds. -/
structure RuntimeEnv where
  pdf2pptxImportable : Bool
  pymupdfImportable : Bool
  pptxImportable : Bool
  imagemagickOk : Bool
deriving DecidableEq

/-- Importing `pdf_to_ppt.py` snapshots the three library flags from the
environment at import time (lines 21-61 of the source). -/
def importSnapshot (e : RuntimeEnv) : LibSnapshot :=
  ⟨e.pdf2pptxImportable, e.pymupdfImportable, e.pptxImportable⟩

/-- The dictionary returned by `check_dependencies` (fixed key set). -/
structure DependencyMap where
  pdf2pptx : Bool
  pymupdf : Bool
  pptx : Bool
  imagemagick : Bool
deriving DecidableEq

/-- Source: `PDFtoPPTConverter.check_dependencies`. The three library entries
read the module-level flags (the import snapshot); the `imagemagick` entry
runs `_check_imagemagick()` against the current environment. -/
def check_dependencies (snap : LibSnapshot) (now : RuntimeEnv) : DependencyMap :=
  { pdf2pptx := snap.pdf2pptxAvail
    pymupdf := snap.pymupdfAvail
    pptx := snap.pptxAvail
    imagemagick := now.imagemagickOk }

/-- The `if/elif` chain of `get_best_available_method` over a computed
dependency dictionary. -/
def selectFrom (deps : DependencyMap) : Except String ConversionMethod :=
  if deps.pdf2pptx then .ok .pdf2pptx
  else if deps.pymupdf && deps.pptx then .ok .pymupdf
  else if deps.imagemagick && deps.pptx then .ok .imagemagick
  else .error "没有可用的转换方法，请安装必要的依赖"

/-- Source: `PDFtoPPTConverter.get_best_available_method`: computes
`check_dependencies()` and picks the first satisfied tier, raising
`RuntimeError` (modelled as `Except.error`) when none is satisfied. -/
def get_best_available_method (snap : LibSnapshot) (now : RuntimeEnv) :
    Except String ConversionMethod :=
  selectFrom (check_dependencies snap now)

/-- What `fitz.open` exposes of a PDF document: its page count and the
dimensions of its first page. -/
structure PdfDoc where
  pageCount : Nat
  firstPageWidth : ℚ
  firstPageHeight : ℚ
deriving DecidableEq

/-- Source: `PDFtoPPTConverter.detect_aspect_ratio` (name shortened). When the
rendering library is available it opens the document (oracle `openRes`), reads
the width/height of the first page and classifies height/width; any raised fault —
a failed open, an out-of-range `doc[0]` on an empty document, or a division by
a zero width — is caught and mapped to the 4:3 default `(standard43, 3/4)`;
when the library is unavailable the same default is returned directly. -/
def detect_aspect (avail : Bool) (openRes : Except String PdfDoc) : AspectKind × ℚ :=
  if avail then
    match openRes with
    | .error _ => (.standard43, 3/4)
    | .ok doc =>
      if doc.pageCount = 0 ∨ doc.firstPageWidth = 0 then
        (.standard43, 3/4)
      else
        let rv := doc.firstPageHeight / doc.firstPageWidth
        if 74/100 ≤ rv ∧ rv ≤ 76/100 then (.standard43, rv)
        else if 55/100 ≤ rv ∧ rv ≤ 57/100 then (.widescreen169, rv)
        else (.custom, rv)
  else (.standard43, 3/4)

/-- The digit character of `d` (for `d < 10`): codepoint `48 + d`. -/
def digitChar (d : Nat) : Char := Char.ofNat (48 + d)

/-- The 4-digit zero-padded decimal rendering used by the image filenames
of the source: the Python format `f"{n:04d}"` and the pattern `page_%04d.png`. Exact for
`n < 10000`; the claims about filename ordering are stated for page counts up
to 9999, where this is precisely the format of the source. -/
def fmt04 (n : Nat) : List Char :=
  [digitChar (n / 1000 % 10), digitChar (n / 100 % 10),
   digitChar (n / 10 % 10), digitChar (n % 10)]

/-- Image filename written by `_convert_with_pymupdf` for 0-based page `pg`:
`page_{pg+1:04d}.png`. -/
def pageImgNamePymupdf (pg : Nat) : List Char :=
  "page_".data ++ (fmt04 (pg + 1) ++ ".png".data)

/-- Image filename produced by the `page_%04d.png` output pattern of ImageMagick for
0-based frame `idx`. -/
def pageImgNameIm (idx : Nat) : List Char :=
  "page_".data ++ (fmt04 idx ++ ".png".data)

/-- Strict lexicographic order on character lists by codepoint: the order in
which the Python builtin `sorted` arranges the collected image filenames. -/
def lexLt : List Char → List Char → Bool
  | _, [] => false
  | [], _ :: _ => true
  | a :: as, b :: bs =>
    if a.toNat < b.toNat then true
    else if a.toNat = b.toNat then lexLt as bs
    else false

/-- One insertion step of the sort modelling the Python builtin `sorted` (stable,
ascending under `lexLt`). -/
def insertLex (x : List Char) : List (List Char) → List (List Char)
  | [] => [x]
  | y :: ys => if lexLt x y then x :: y :: ys else y :: insertLex x ys

/-- Sorting by `lexLt`: the model of `sorted(...)` on filename lists. -/
def sortLex : List (List Char) → List (List Char)
  | [] => []
  | x :: xs => insertLex x (sortLex xs)

/-- python-pptx presentation model: slide geometry in inches. Slides
themselves are recorded in the effect trace. -/
structure Prs where
  slideWidth : ℚ
  slideHeight : ℚ
deriving DecidableEq

/-- `Presentation()` with the python-pptx default 10 x 7.5 inch geometry. -/
def defaultPrs : Prs := ⟨10, 15/2⟩

/-- Observable effects of the module converter (`pdf_to_ppt.py`). -/
inductive Effect
  | createTempDir
  | removeTempDir
  | callPdf2pptx (input output : String) (dpi startPage : Nat) (pageCount : Option Nat)
  | renderPage (pg : Nat) (imgName : List Char)
  | addSlide (pg : Nat)
  | addSlideImg (imgName : List Char)
  | runImagemagick (argv : List String)
  | savePpt (path : String)
deriving DecidableEq

/-- Oracles describing the world a module conversion call runs in:
filesystem probes, the opened document, and the outcome of every step that
can raise or exit non-zero. `loopFaultAfter = some (k, e)` injects an
exception with message `e` after `k` complete iterations of the page loop
(no fault when `k` is at least the number of pages iterated). -/
structure Env where
  inputExists : Bool
  templateExists : Bool
  imagemagickOk : Bool
  openPdf : Except String PdfDoc
  templatePrs : Prs
  tempDirName : String
  pdf2pptxFault : Option String
  pdf2pptxOutputExists : Bool
  loopFaultAfter : Option (Nat × String)
  saveFault : Option String
  savedOutputExists : Bool
  docTotalFrames : Nat
  imExitCode : Int
  imStderr : String
  imBuildFault : Option String

/-- `Path(input_path).parent / (Path(input_path).stem + ".pptx")`: the default
output path when none is given (modelled for ordinary slash-separated paths). -/
def defaultOutputPath (p : String) : String :=
  let comps := p.splitOn "/"
  let name := comps.getLastD ""
  let stem := match name.splitOn "." with
    | [x] => x
    | parts => String.intercalate "." parts.dropLast
  if comps.length ≤ 1 then stem ++ ".pptx"
  else String.intercalate "/" comps.dropLast ++ "/" ++ stem ++ ".pptx"

/-- Error strings of `pdf_to_ppt.py` (exact source text). -/
def msgMissingPdf2pptx : String :=
  "缺少必要的库: pdf2pptx。请运行 \x27pip install pdf2pptx python-pptx\x27 安装。"

def msgMissingPymupdf : String :=
  "缺少必要的库: PyMuPDF。请运行 \x27pip install pymupdf\x27 安装。"

def msgMissingPptx : String :=
  "缺少必要的库: python-pptx。请运行 \x27pip install python-pptx\x27 安装。"

def msgMissingImagemagick : String :=
  "ImageMagick未安装或不可用。请安装ImageMagick并确保\x27convert\x27命令可用。"

def msgNoOutput : String := "转换失败，未生成输出文件"

def msgFault (e : String) : String := "转换过程中出错: " ++ e

/-- Source: `PDFtoPPTConverter._convert_with_pdf2pptx`. The return value of the library call
itself is not trusted: success requires the output file to exist
afterwards. The `detect_ratio` parameter exists in the source but is unused. -/
def convert_with_pdf2pptx (snap : LibSnapshot) (env : Env)
    (input output : String) (dpi startPage : Nat) (pageCount : Option Nat)
    (_autoDetect : Bool) : (Bool × String) × List Effect :=
  if !snap.pdf2pptxAvail then ((false, msgMissingPdf2pptx), [])
  else
    match env.pdf2pptxFault with
    | some e => ((false, msgFault e), [.callPdf2pptx input output dpi startPage pageCount])
    | none =>
      if env.pdf2pptxOutputExists then
        ((true, output), [.callPdf2pptx input output dpi startPage pageCount])
      else
        ((false, msgNoOutput), [.callPdf2pptx input output dpi startPage pageCount])

/-- The page range `range(start_page, end_page)` of `_convert_with_pymupdf`:
`end_page` is the document page count when `page_count` is unset, else
`min(start_page + page_count, total)`. -/
def pymupdfPageRange (startPage : Nat) (pageCount : Option Nat) (total : Nat) : List Nat :=
  let endPage := match pageCount with
    | none => total
    | some c => min (startPage + c) total
  List.range' startPage (endPage - startPage)

/-- The base presentation: the template when a template path is given
(non-empty, Python truthiness) and exists, else `Presentation()`. -/
def basePrs (env : Env) (templatePath : Option String) : Prs :=
  match templatePath with
  | some p => if p ≠ "" then (if env.templateExists then env.templatePrs else defaultPrs)
              else defaultPrs
  | none => defaultPrs

/-- The detect-and-adapt branch shared by the pymupdf and imagemagick paths:
16:9 documents get 10 x 5.625 in slides, every other detection result gets
10 x 7.5 in; with detection off the presentation keeps its geometry. -/
def adaptGeometry (snap : LibSnapshot) (env : Env) (autoDetect : Bool) (prs : Prs) : Prs :=
  if autoDetect then
    match detect_aspect snap.pymupdfAvail env.openPdf with
    | (.widescreen169, _) => { prs with slideWidth := 10, slideHeight := 45/8 }
    | _ => { prs with slideWidth := 10, slideHeight := 15/2 }
  else prs

/-- Source: `PDFtoPPTConverter._convert_with_pymupdf`: open the document,
compute the page range, build the presentation, render each page of the range
to `page_{pg+1:04d}.png` in a scoped temporary directory and add one slide per
page in order, save, then verify the output file exists. Every injected fault
(open, loop, save) is caught and yields `(false, message)`; the scoped
temporary directory is removed on both the success and the fault paths. -/
def convert_with_pymupdf (snap : LibSnapshot) (env : Env)
    (input output : String) (dpi startPage : Nat) (pageCount : Option Nat)
    (templatePath : Option String) (autoDetect : Bool) :
    (Bool × String) × List Effect :=
  if !snap.pymupdfAvail then ((false, msgMissingPymupdf), [])
  else if !snap.pptxAvail then ((false, msgMissingPptx), [])
  else
    match env.openPdf with
    | .error e => ((false, msgFault e), [])
    | .ok doc =>
      let pages := pymupdfPageRange startPage pageCount doc.pageCount
      let _prs := adaptGeometry snap env autoDetect (basePrs env templatePath)
      let cut := match env.loopFaultAfter with
        | some (k, _) => min k pages.length
        | none => pages.length
      let loopTrace := (pages.take cut).flatMap
        (fun pg => [Effect.renderPage pg (pageImgNamePymupdf pg), Effect.addSlide pg])
      let faulted : Option String := match env.loopFaultAfter with
        | some (k, e) => if k < pages.length then some e else none
        | none => none
      match faulted with
      | some e =>
        ((false, msgFault e), [Effect.createTempDir] ++ loopTrace ++ [Effect.removeTempDir])
      | none =>
        match env.saveFault with
        | some e =>
          ((false, msgFault e), [Effect.createTempDir] ++ loopTrace ++ [Effect.removeTempDir])
        | none =>
          let trace := [Effect.createTempDir] ++ loopTrace ++
            [Effect.savePpt output, Effect.removeTempDir]
          if env.savedOutputExists then ((true, output), trace)
          else ((false, msgNoOutput), trace)

/-- The argv built by `_convert_with_imagemagick`. Note: the bare input path
stays in the command AND, when a page range is requested, the input is
appended a second time with the `[start-end]` selection suffix — the
unrestricted input is not replaced. -/
def imagemagickCmd (input : String) (dpi startPage : Nat)
    (pageCount : Option Nat) (tempDir : String) : List String :=
  ["convert", "-density", toString dpi, input]
    ++ (match pageCount with
        | some c => [input ++ "[" ++ toString startPage ++ "-" ++
                     toString (startPage + c - 1) ++ "]"]
        | none => [])
    ++ [tempDir ++ "/page_%04d.png"]

/-- Modelled from the spec: the External Renderer collaborator (the
command-line rasterizer), which is not part of this repository. Per the spec
it "rasterizes PDF pages to images"; each input argument of the command
contributes its selected frames in order — a bare path contributes every page
of the document, a `path[a-b]` argument contributes pages `a..b` (those that
exist) — and the frames are written to the `page_%04d.png` pattern numbered
from 0. -/
def imagemagickFrames (total startPage : Nat) (pageCount : Option Nat) : List Nat :=
  List.range total ++ (match pageCount with
    | none => []
    | some c => (List.range' startPage c).filter (fun p => decide (p < total)))

/-- Source: `PDFtoPPTConverter._convert_with_imagemagick`: re-probe the
`convert` tool, run the built command into a scoped temporary directory, fail
with the captured stderr on a non-zero exit, otherwise collect the produced
`page_*.png` files sorted lexicographically, add one slide per file, save and
verify the output exists. Faults during presentation building are caught. -/
def convert_with_imagemagick (snap : LibSnapshot) (env : Env)
    (input output : String) (dpi startPage : Nat) (pageCount : Option Nat)
    (templatePath : Option String) (autoDetect : Bool) :
    (Bool × String) × List Effect :=
  if !env.imagemagickOk then ((false, msgMissingImagemagick), [])
  else if !snap.pptxAvail then ((false, msgMissingPptx), [])
  else
    let argv := imagemagickCmd input dpi startPage pageCount env.tempDirName
    if env.imExitCode ≠ 0 then
      ((false, "PDF转图片失败: " ++ env.imStderr),
       [.createTempDir, .runImagemagick argv, .removeTempDir])
    else
      let m := (imagemagickFrames env.docTotalFrames startPage pageCount).length
      let files := sortLex ((List.range m).map pageImgNameIm)
      let _prs := adaptGeometry snap env autoDetect (basePrs env templatePath)
      match env.imBuildFault with
      | some e =>
        ((false, msgFault e), [.createTempDir, .runImagemagick argv, .removeTempDir])
      | none =>
        let trace := [Effect.createTempDir, Effect.runImagemagick argv] ++
          files.map Effect.addSlideImg ++ [Effect.savePpt output, Effect.removeTempDir]
        if env.savedOutputExists then ((true, output), trace)
        else ((false, msgNoOutput), trace)

/-- Source: `PDFtoPPTConverter.convert_pdf_to_ppt`: reject a missing input
before any work, default the output path, then dispatch on the strategy. -/
def convert_pdf_to_ppt (snap : LibSnapshot) (env : Env)
    (inputPath : String) (outputPathArg : Option String) (method : ConversionMethod)
    (dpi startPage : Nat) (pageCount : Option Nat)
    (templatePath : Option String) (autoDetect : Bool) :
    (Bool × String) × List Effect :=
  if !env.inputExists then ((false, "输入文件不存在: " ++ inputPath), [])
  else
    let output := match outputPathArg with
      | some p => p
      | none => defaultOutputPath inputPath
    match method with
    | .pdf2pptx =>
      convert_with_pdf2pptx snap env inputPath output dpi startPage pageCount autoDetect
    | .pymupdf =>
      convert_with_pymupdf snap env inputPath output dpi startPage pageCount
        templatePath autoDetect
    | .imagemagick =>
      convert_with_imagemagick snap env inputPath output dpi startPage pageCount
        templatePath autoDetect

/-- Outcome of the `soffice` subprocess call in `convert_pdf2ppt.py`:
a normal exit, a missing binary (`FileNotFoundError`), another subprocess
error, or the fixed 60-second timeout expiring. -/
inductive SofficeOutcome
  | exited (code : Int)
  | notFound
  | subprocErr
  | timedOut
deriving DecidableEq

/-- Observable effects of the CLI variant (`convert_pdf2ppt.py`). -/
inductive CliEffect
  | makeTempDir (dir : String)
  | removeTempDir (dir : String)
  | runConvert (argv : List String)
  | makeOutputDir (dir : String)
  | writeHtml (path : String)
  | runSoffice (argv : List String) (timeoutSecs : Nat)
  | moveFile (src dst : String)
  | writePlaceholder (pdfPath tempDir : String)
deriving DecidableEq

/-- Oracles for a `convert_pdf2ppt.py` run. `imagemagickBanner` is
`check_imagemagick()` (stdout contains "ImageMagick", no exception);
`imagesProduced` counts the `page_*.png` files present after the rasterizer
ran; `generatedExists` is whether `slides.pptx` appeared in the output
directory after an exit-0 soffice run. -/
structure CliEnv where
  imagemagickBanner : Bool
  inputExists : Bool
  tempDirName : String
  convExitCode : Int
  imagesProduced : Nat
  outputDirMissing : Bool
  sofficeOutcome : SofficeOutcome
  generatedExists : Bool
  placeholderFault : Option String

/-- `os.path.dirname` for slash-separated paths. -/
def dirName (p : String) : String :=
  let comps := p.splitOn "/"
  if comps.length ≤ 1 then "" else String.intercalate "/" comps.dropLast

/-- `os.path.join` for the shapes used by the source. -/
def joinPath (a b : String) : String := if a = "" then b else a ++ "/" ++ b

/-- Method 2 of `convert_pdf2ppt.convert_pdf_to_ppt`: write a plain-text
placeholder at the output path recording the original PDF and where the
intermediate images were left, and report success; only a fault while
writing it yields failure. -/
def cliPlaceholder (env : CliEnv) (input : String) (t : List CliEffect) :
    Bool × List CliEffect :=
  match env.placeholderFault with
  | some _ => (false, t)
  | none => (true, t ++ [.writePlaceholder input env.tempDirName])

/-- Source: `convert_pdf2ppt.convert_pdf_to_ppt`: probe ImageMagick, rasterize
into an unmanaged `mkdtemp` directory (never removed — the `finally` block
only logs), build an HTML slide deck, try `soffice --headless --convert-to
pptx` under a fixed 60-second timeout, move its `slides.pptx` over the
requested output on success, and otherwise fall back to the placeholder
writer. The failure result of the HTML writer is ignored by the source. -/
def cli_convert_pdf_to_ppt (env : CliEnv) (inputPath outputPath : String)
    (dpi : Nat) : Bool × List CliEffect :=
  if !env.imagemagickBanner then (false, [])
  else
    let argvConv := ["convert", "-density", toString dpi, inputPath,
                     joinPath env.tempDirName "page_%03d.png"]
    let t1 : List CliEffect := [.makeTempDir env.tempDirName, .runConvert argvConv]
    if env.convExitCode ≠ 0 then (false, t1)
    else if env.imagesProduced = 0 then (false, t1)
    else
      let t2 := t1 ++ (if dirName outputPath ≠ "" ∧ env.outputDirMissing then
        [CliEffect.makeOutputDir (dirName outputPath)] else [])
      let htmlPath := joinPath env.tempDirName "slides.html"
      let t3 := t2 ++ [CliEffect.writeHtml htmlPath]
      let argvSo := ["soffice", "--headless", "--convert-to", "pptx",
                     "--outdir", dirName outputPath, htmlPath]
      let t4 := t3 ++ [CliEffect.runSoffice argvSo 60]
      match env.sofficeOutcome with
      | .exited code =>
        if code = 0 then
          if env.generatedExists then
            (true, t4 ++ [.moveFile (joinPath (dirName outputPath) "slides.pptx") outputPath])
          else cliPlaceholder env inputPath t4
        else cliPlaceholder env inputPath t4
      | .notFound => cliPlaceholder env inputPath t4
      | .subprocErr => cliPlaceholder env inputPath t4
      | .timedOut => cliPlaceholder env inputPath t4

/-- Source: `convert_pdf2ppt.main`: reject a missing input before any work
(exit 1), default the output path from the input stem, run the conversion and
map its boolean to the process exit code. -/
def cli_main (env : CliEnv) (inputPath : String) (outputArg : Option String)
    (dpi : Nat) : Int × List CliEffect :=
  if !env.inputExists then (1, [])
  else
    let outputPath := match outputArg with
      | some p => if p ≠ "" then p else defaultOutputPath inputPath
      | none => defaultOutputPath inputPath
    let r := cli_convert_pdf_to_ppt env inputPath outputPath dpi
    (if r.1 then 0 else 1, r.2)

/-- A ten-page 4:3 document. -/
def tenPageDoc : PdfDoc := ⟨10, 4, 3⟩

/-- A fully healthy environment for the module converter, used to instantiate
concrete scenarios. -/
def sampleEnv : Env :=
  { inputExists := true
    templateExists := false
    imagemagickOk := true
    openPdf := .ok tenPageDoc
    templatePrs := defaultPrs
    tempDirName := "/tmp/t"
    pdf2pptxFault := none
    pdf2pptxOutputExists := true
    loopFaultAfter := none
    saveFault := none
    savedOutputExists := true
    docTotalFrames := 10
    imExitCode := 0
    imStderr := ""
    imBuildFault := none }

/-- A healthy CLI environment whose soffice step times out. -/
def sampleCliEnv : CliEnv :=
  { imagemagickBanner := true
    inputExists := true
    tempDirName := "/tmp/t"
    convExitCode := 0
    imagesProduced := 10
    outputDirMissing := false
    sofficeOutcome := .timedOut
    generatedExists := false
    placeholderFault := none }

/-- The page index carried by an `addSlide` effect. -/
def slideOf : Effect → Option Nat
  | .addSlide pg => some pg
  | _ => none

/-- Whether an effect is an image-slide insertion. -/
def isAddSlideImg : Effect → Bool
  | .addSlideImg _ => true
  | _ => false

/-! ## Theorems -/

/-- C1: `get_best_available_method` is deterministic in the
dependency-availability snapshot and always returns the highest-priority
satisfied tier in the order pdf2pptx, then pymupdf+pptx, then
imagemagick+pptx; when no tier is satisfied it fails with the
no-backend-available error instead of returning a strategy. -/
theorem get_best_method_spec (snap : LibSnapshot) (now : RuntimeEnv) :
    (snap.pdf2pptxAvail = true →
      get_best_available_method snap now = .ok .pdf2pptx) ∧
    (snap.pdf2pptxAvail = false → snap.pymupdfAvail = true → snap.pptxAvail = true →
      get_best_available_method snap now = .ok .pymupdf) ∧
    (snap.pdf2pptxAvail = false → snap.pymupdfAvail = false →
      now.imagemagickOk = true → snap.pptxAvail = true →
      get_best_available_method snap now = .ok .imagemagick) ∧
    (¬(snap.pdf2pptxAvail = true) →
      ¬(snap.pymupdfAvail = true ∧ snap.pptxAvail = true) →
      ¬(now.imagemagickOk = true ∧ snap.pptxAvail = true) →
      get_best_available_method snap now = .error "没有可用的转换方法，请安装必要的依赖") ∧
    (∀ snap2 now2, check_dependencies snap now = check_dependencies snap2 now2 →
      get_best_available_method snap now = get_best_available_method snap2 now2) := by
  refine ⟨?_, ?_, ?_, ?_, ?_⟩
  · intro h
    simp [get_best_available_method, check_dependencies, selectFrom, h]
  · intro h1 h2 h3
    simp [get_best_available_method, check_dependencies, selectFrom, h1, h2, h3]
  · intro h1 h2 h3 h4
    simp [get_best_available_method, check_dependencies, selectFrom, h1, h2, h3, h4]
  · intro h1 h2 h3
    have ha : snap.pdf2pptxAvail = false := by
      cases hx : snap.pdf2pptxAvail
      · rfl
      · exact absurd hx h1
    rcases Bool.eq_false_or_eq_true snap.pptxAvail with hc | hc
    · have hb : snap.pymupdfAvail = false := by
        cases hx : snap.pymupdfAvail
        · rfl
        · exact absurd ⟨hx, hc⟩ h2
      have hs : now.imagemagickOk = false := by
        cases hx : now.imagemagickOk
        · rfl
        · exact absurd ⟨hx, hc⟩ h3
      simp [get_best_available_method, check_dependencies, selectFrom, ha, hb, hc, hs]
    · simp [get_best_available_method, check_dependencies, selectFrom, ha, hc]
  · intro snap2 now2 h
    unfold get_best_available_method
    rw [h]

/-- Witness for C1 at concrete snapshots: the first tier wins when pdf2pptx is
available, and the probe with nothing available fails with the error. -/
theorem get_best_method_spec_witness :
    get_best_available_method ⟨true, false, false⟩ ⟨true, false, false, false⟩ =
      .ok .pdf2pptx ∧
    get_best_available_method ⟨false, false, false⟩ ⟨false, false, false, false⟩ =
      .error "没有可用的转换方法，请安装必要的依赖" :=
  ⟨(get_best_method_spec ⟨true, false, false⟩ ⟨true, false, false, false⟩).1 rfl,
   (get_best_method_spec ⟨false, false, false⟩ ⟨false, false, false, false⟩).2.2.2.1
     (by decide) (by decide) (by decide)⟩

/-- C2: `detect_aspect` is total, returning exactly one of the three kinds
together with the measured value; the closed band [0.74, 0.76] maps to 4:3,
the closed band [0.55, 0.57] maps to 16:9, every other value to custom; and
every failure path (library unavailable, failed open, empty document, zero
width) returns the 4:3 default (standard43, 3/4) instead of raising. -/
theorem detect_aspect_spec (avail : Bool) (openRes : Except String PdfDoc) :
    ((detect_aspect avail openRes).1 = .standard43 ∨
     (detect_aspect avail openRes).1 = .widescreen169 ∨
     (detect_aspect avail openRes).1 = .custom) ∧
    (avail = false → detect_aspect avail openRes = (.standard43, 3/4)) ∧
    (∀ e, openRes = .error e → detect_aspect avail openRes = (.standard43, 3/4)) ∧
    (∀ doc, openRes = .ok doc → (doc.pageCount = 0 ∨ doc.firstPageWidth = 0) →
      detect_aspect avail openRes = (.standard43, 3/4)) ∧
    (∀ doc, openRes = .ok doc → avail = true →
      doc.pageCount ≠ 0 → doc.firstPageWidth ≠ 0 →
      ((74/100 ≤ doc.firstPageHeight / doc.firstPageWidth ∧
          doc.firstPageHeight / doc.firstPageWidth ≤ 76/100 →
        detect_aspect avail openRes =
          (.standard43, doc.firstPageHeight / doc.firstPageWidth)) ∧
       (55/100 ≤ doc.firstPageHeight / doc.firstPageWidth ∧
          doc.firstPageHeight / doc.firstPageWidth ≤ 57/100 →
        detect_aspect avail openRes =
          (.widescreen169, doc.firstPageHeight / doc.firstPageWidth)) ∧
       (¬(74/100 ≤ doc.firstPageHeight / doc.firstPageWidth ∧
            doc.firstPageHeight / doc.firstPageWidth ≤ 76/100) →
        ¬(55/100 ≤ doc.firstPageHeight / doc.firstPageWidth ∧
            doc.firstPageHeight / doc.firstPageWidth ≤ 57/100) →
        detect_aspect avail openRes =
          (.custom, doc.firstPageHeight / doc.firstPageWidth)))) := by
  refine ⟨?_, ?_, ?_, ?_, ?_⟩
  · cases hk : (detect_aspect avail openRes).1 <;> simp [hk]
  · intro h; simp [detect_aspect, h]
  · intro e h; cases avail <;> simp [detect_aspect, h]
  · intro doc h h0; cases avail <;> simp [detect_aspect, h, h0]
  · intro doc h ha h0 hw
    have hnz : ¬(doc.pageCount = 0 ∨ doc.firstPageWidth = 0) := by
      intro hc; rcases hc with hc | hc
      · exact h0 hc
      · exact hw hc
    refine ⟨?_, ?_, ?_⟩
    · intro hb
      simp [detect_aspect, ha, h, hnz, hb]
    · intro hb
      have hnot1 : ¬(74/100 ≤ doc.firstPageHeight / doc.firstPageWidth ∧
          doc.firstPageHeight / doc.firstPageWidth ≤ 76/100) := by
        rintro ⟨h1, _⟩
        have := hb.2
        linarith
      simp [detect_aspect, ha, h, hnz, hnot1, hb]
    · intro h1 h2
      simp [detect_aspect, ha, h, hnz, h1, h2]

/-- Witness for C2 at concrete inputs: a 4-by-3 first page lands in the 4:3
band; a 16-by-9 first page lands in the 16:9 band; a failed open yields the
default; a square page is custom. -/
theorem detect_aspect_spec_witness :
    detect_aspect true (.ok ⟨1, 4, 3⟩) = (.standard43, 3/4) ∧
    detect_aspect true (.ok ⟨1, 16, 9⟩) = (.widescreen169, 9/16) ∧
    detect_aspect true (.error "open failed") = (.standard43, 3/4) ∧
    detect_aspect true (.ok ⟨1, 5, 5⟩) = (.custom, 1) := by
  refine ⟨?_, ?_, ?_, ?_⟩
  · have h := (detect_aspect_spec true (.ok ⟨1, 4, 3⟩)).2.2.2.2 ⟨1, 4, 3⟩ rfl rfl
      (by decide) (by decide)
    have := h.1 (by constructor <;> norm_num)
    simpa using this
  · have h := (detect_aspect_spec true (.ok ⟨1, 16, 9⟩)).2.2.2.2 ⟨1, 16, 9⟩ rfl rfl
      (by decide) (by decide)
    have := h.2.1 (by constructor <;> norm_num)
    simpa using this
  · exact (detect_aspect_spec true (.error "open failed")).2.2.1 _ rfl
  · have h := (detect_aspect_spec true (.ok ⟨1, 5, 5⟩)).2.2.2.2 ⟨1, 5, 5⟩ rfl rfl
      (by decide) (by decide)
    have := h.2.2 (by intro hc; rcases hc with ⟨h1, h2⟩; norm_num at h2)
      (by intro hc; rcases hc with ⟨h1, h2⟩; norm_num at h2)
    simpa using this

/-- C6 counterexample: with an import snapshot where all three libraries
were importable, a later call in an environment where none of them remains
importable still reports all three as available — the library entries are
cached at module load, not recomputed per call — and two calls in
environments that differ in the importability of every library return
identical mappings. -/
theorem check_dependencies_cached_counterexample :
    check_dependencies (importSnapshot ⟨true, true, true, true⟩)
        ⟨false, false, false, false⟩ = ⟨true, true, true, false⟩ ∧
    (⟨false, false, false, false⟩ : RuntimeEnv).pdf2pptxImportable = false ∧
    check_dependencies (importSnapshot ⟨true, true, true, true⟩)
        ⟨false, false, false, true⟩ =
      check_dependencies (importSnapshot ⟨true, true, true, true⟩)
        ⟨true, true, true, true⟩ := by
  decide

/-- C6 amended: only the imagemagick entry of `check_dependencies` is
recomputed from the current environment on each call; the pdf2pptx, pymupdf
and pptx entries are fixed by the import-time snapshot, so two calls can
differ at most in the imagemagick entry. -/
theorem check_dependencies_amended (snap : LibSnapshot) (now now2 : RuntimeEnv) :
    check_dependencies snap now =
      ⟨snap.pdf2pptxAvail, snap.pymupdfAvail, snap.pptxAvail, now.imagemagickOk⟩ ∧
    ((check_dependencies snap now).imagemagick =
        (check_dependencies snap now2).imagemagick ↔
      now.imagemagickOk = now2.imagemagickOk) ∧
    (check_dependencies snap now).pdf2pptx = (check_dependencies snap now2).pdf2pptx ∧
    (check_dependencies snap now).pymupdf = (check_dependencies snap now2).pymupdf ∧
    (check_dependencies snap now).pptx = (check_dependencies snap now2).pptx := by
  refine ⟨rfl, Iff.rfl, rfl, rfl, rfl⟩

/-- A shared prefix does not affect the lexicographic comparison. -/
theorem lexLt_append_same (p a b : List Char) :
    lexLt (p ++ a) (p ++ b) = lexLt a b := by
  induction p with
  | nil => rfl
  | cons c p ih => simp [lexLt, ih]

/-- The codepoint of a digit character. -/
theorem digitChar_toNat (d : Nat) (h : d < 10) : (digitChar d).toNat = 48 + d := by
  interval_cases d <;> rfl

/-- Fixed-width zero-padded rendering is strictly monotone under the
lexicographic order, whatever suffixes follow the digits. -/
theorem fmt04_lexLt (i j : Nat) (hij : i < j) (hj : j < 10000) (s t : List Char) :
    lexLt (fmt04 i ++ s) (fmt04 j ++ t) = true := by
  have e0 := digitChar_toNat (i / 1000 % 10) (Nat.mod_lt _ (by norm_num))
  have e1 := digitChar_toNat (i / 100 % 10) (Nat.mod_lt _ (by norm_num))
  have e2 := digitChar_toNat (i / 10 % 10) (Nat.mod_lt _ (by norm_num))
  have e3 := digitChar_toNat (i % 10) (Nat.mod_lt _ (by norm_num))
  have f0 := digitChar_toNat (j / 1000 % 10) (Nat.mod_lt _ (by norm_num))
  have f1 := digitChar_toNat (j / 100 % 10) (Nat.mod_lt _ (by norm_num))
  have f2 := digitChar_toNat (j / 10 % 10) (Nat.mod_lt _ (by norm_num))
  have f3 := digitChar_toNat (j % 10) (Nat.mod_lt _ (by norm_num))
  simp only [fmt04, List.cons_append, List.nil_append, lexLt,
    e0, e1, e2, e3, f0, f1, f2, f3]
  split_ifs <;> first | rfl | omega

/-- Strict monotonicity of the pymupdf image filenames in the page index,
below the 9999-page bound. -/
theorem pageImgNamePymupdf_mono (i j : Nat) (hij : i < j) (hj : j + 1 < 10000) :
    lexLt (pageImgNamePymupdf i) (pageImgNamePymupdf j) = true := by
  unfold pageImgNamePymupdf
  rw [lexLt_append_same]
  exact fmt04_lexLt _ _ (by omega) hj _ _

/-- Strict monotonicity of the ImageMagick output filenames in the frame
index, below the 10000-frame bound. -/
theorem pageImgNameIm_mono (i j : Nat) (hij : i < j) (hj : j < 10000) :
    lexLt (pageImgNameIm i) (pageImgNameIm j) = true := by
  unfold pageImgNameIm
  rw [lexLt_append_same]
  exact fmt04_lexLt _ _ hij hj _ _

/-- C8: in the render+assemble paths, image files are numbered with
fixed-width zero-padded indices, so for every page count up to 9999 the list
of filenames in numeric page order — `page_{pg+1:04d}.png` for pages
`0..n-1` in the pymupdf path, `page_%04d.png` frames `0..n-1` in the
imagemagick path — is already strictly increasing in the lexicographic
order: sorting filenames lexicographically coincides with numeric page
order. -/
theorem image_names_lex_sorted (n : Nat) (hn : n ≤ 9999) :
    ((List.range n).map pageImgNamePymupdf).Pairwise (fun a b => lexLt a b = true) ∧
    ((List.range n).map pageImgNameIm).Pairwise (fun a b => lexLt a b = true) := by
  constructor
  · rw [List.pairwise_map]
    refine (List.pairwise_lt_range n).imp_of_mem ?_
    intro a b _ hb hab
    have hbn : b < n := List.mem_range.mp hb
    exact pageImgNamePymupdf_mono a b hab (by omega)
  · rw [List.pairwise_map]
    refine (List.pairwise_lt_range n).imp_of_mem ?_
    intro a b _ hb hab
    have hbn : b < n := List.mem_range.mp hb
    exact pageImgNameIm_mono a b hab (by omega)

/-- Witness for C8 at the concrete page count 12 (indices crossing the
one-digit/two-digit boundary, where unpadded names would sort wrongly). -/
theorem image_names_lex_sorted_witness :
    (12 ≤ 9999) ∧
    ((List.range 12).map pageImgNamePymupdf).Pairwise (fun a b => lexLt a b = true) ∧
    ((List.range 12).map pageImgNameIm).Pairwise (fun a b => lexLt a b = true) :=
  ⟨by decide, (image_names_lex_sorted 12 (by decide)).1,
    (image_names_lex_sorted 12 (by decide)).2⟩

/-- C5: when the input path does not exist, the `convert_pdf_to_ppt` of the module
returns `(false, message)` naming the missing input before any work begins and
performs no effects (in particular, creates no temporary files or
directories); the CLI `main` likewise rejects the missing input with exit
code 1 before any work. -/
theorem missing_input_spec :
    (∀ (snap : LibSnapshot) (env : Env) (inp : String) (outArg : Option String)
       (m : ConversionMethod) (dpi st : Nat) (pc : Option Nat) (tp : Option String)
       (ad : Bool),
      env.inputExists = false →
      convert_pdf_to_ppt snap env inp outArg m dpi st pc tp ad =
        ((false, "输入文件不存在: " ++ inp), [])) ∧
    (∀ (cenv : CliEnv) (inp : String) (outArg : Option String) (dpi : Nat),
      cenv.inputExists = false → cli_main cenv inp outArg dpi = (1, [])) := by
  constructor
  · intro snap env inp outArg m dpi st pc tp ad h
    simp [convert_pdf_to_ppt, h]
  · intro cenv inp outArg dpi h
    simp [cli_main, h]

/-- Witness for C5 at a concrete missing input. -/
theorem missing_input_spec_witness :
    ({ sampleEnv with inputExists := false } : Env).inputExists = false ∧
    convert_pdf_to_ppt ⟨true, true, true⟩ { sampleEnv with inputExists := false }
      "in.pdf" (some "out.pptx") .pymupdf 300 0 none none true =
      ((false, "输入文件不存在: in.pdf"), []) ∧
    cli_main { sampleCliEnv with inputExists := false } "in.pdf" none 300 = (1, []) := by
  refine ⟨rfl, ?_, ?_⟩
  · have h := missing_input_spec.1 ⟨true, true, true⟩
      { sampleEnv with inputExists := false } "in.pdf" (some "out.pptx") .pymupdf
      300 0 none none true rfl
    exact h.trans (by decide)
  · exact missing_input_spec.2 { sampleCliEnv with inputExists := false } "in.pdf" none 300 rfl

/-- C10: with the pymupdf strategy, a page count set and a start page at or
past the end of the document, the page range is empty: no page is rendered,
no slide is added, yet the presentation is still saved at the output path and
the call reports `(true, output_path)` — an empty range is success, not an
error. -/
theorem empty_range_saves_empty_presentation
    (snap : LibSnapshot) (env : Env) (inp out : String)
    (dpi st c : Nat) (tp : Option String) (ad : Bool) (doc : PdfDoc) :
    snap.pymupdfAvail = true → snap.pptxAvail = true → env.inputExists = true →
    env.openPdf = .ok doc → doc.pageCount ≤ st →
    env.loopFaultAfter = none → env.saveFault = none → env.savedOutputExists = true →
    convert_pdf_to_ppt snap env inp (some out) .pymupdf dpi st (some c) tp ad =
      ((true, out), [.createTempDir, .savePpt out, .removeTempDir]) := by
  intro h1 h2 h3 h4 h5 h6 h7 h8
  have hrange : pymupdfPageRange st (some c) doc.pageCount = [] := by
    unfold pymupdfPageRange
    have hz : min (st + c) doc.pageCount - st = 0 := by omega
    simp [hz]
  simp [convert_pdf_to_ppt, convert_with_pymupdf, h1, h2, h3, h4, h6, h7, h8, hrange]

/-- Witness for C10: converting the ten-page document from start page 12. -/
theorem empty_range_saves_empty_presentation_witness :
    tenPageDoc.pageCount ≤ 12 ∧
    convert_pdf_to_ppt ⟨true, true, true⟩ sampleEnv "in.pdf" (some "out.pptx")
        .pymupdf 300 12 (some 5) none false =
      ((true, "out.pptx"), [.createTempDir, .savePpt "out.pptx", .removeTempDir]) :=
  ⟨by decide,
   empty_range_saves_empty_presentation ⟨true, true, true⟩ sampleEnv "in.pdf" "out.pptx"
     300 12 5 none false tenPageDoc rfl rfl rfl rfl (by decide) rfl rfl rfl⟩

/-- C3, evaluated at the failing input (a 10-page PDF, start_page = 2,
page_count = 3): the pymupdf path adds exactly the slides for 0-based pages
[2, 3, 4] (original pages 3-5) in order and succeeds, but the imagemagick
path keeps the unrestricted input path in the command next to the ranged
`in.pdf[2-4]` argument, so the rasterizer emits 10 + 3 = 13 frames and the
path builds 13 slides instead of 3. -/
theorem page_range_scenario :
    ((convert_pdf_to_ppt ⟨true, true, true⟩ sampleEnv "in.pdf" (some "out.pptx")
        .pymupdf 300 2 (some 3) none false).2.filterMap slideOf) = [2, 3, 4] ∧
    (convert_pdf_to_ppt ⟨true, true, true⟩ sampleEnv "in.pdf" (some "out.pptx")
        .pymupdf 300 2 (some 3) none false).1 = (true, "out.pptx") ∧
    imagemagickCmd "in.pdf" 300 2 (some 3) "/tmp/t" =
      ["convert", "-density", "300", "in.pdf", "in.pdf[2-4]", "/tmp/t/page_%04d.png"] ∧
    (imagemagickFrames 10 2 (some 3)).length = 13 ∧
    ((convert_pdf_to_ppt ⟨true, true, true⟩ sampleEnv "in.pdf" (some "out.pptx")
        .imagemagick 300 2 (some 3) none false).2.countP isAddSlideImg) = 13 := by
  refine ⟨by decide, by decide, by decide, by decide, by decide⟩

/-- C4: every listed failure is normalized to a `(false, message)` result by
the `convert_pdf_to_ppt` of the module — a raised library fault, a missing output
file after the conversion step, a failed document open, a fault inside the
render loop, a fault during save, and a non-zero exit of the external tool
with its captured stderr — and the CLI `main` maps the conversion boolean
to the process exit code (0 on success, 1 on any failure). The embedded
functions are total, so no exception propagates. -/
theorem failure_normalized_spec (snap : LibSnapshot) (env : Env) (cenv : CliEnv)
    (inp outp : String) (outArg : Option String) (dpi st : Nat) (pc : Option Nat)
    (tp : Option String) (ad : Bool) (e : String) (doc : PdfDoc) (k : Nat) :
    (env.inputExists = true → snap.pdf2pptxAvail = true → env.pdf2pptxFault = some e →
      (convert_pdf_to_ppt snap env inp outArg .pdf2pptx dpi st pc tp ad).1 =
        (false, msgFault e)) ∧
    (env.inputExists = true → snap.pdf2pptxAvail = true → env.pdf2pptxFault = none →
      env.pdf2pptxOutputExists = false →
      (convert_pdf_to_ppt snap env inp outArg .pdf2pptx dpi st pc tp ad).1 =
        (false, msgNoOutput)) ∧
    (env.inputExists = true → snap.pymupdfAvail = true → snap.pptxAvail = true →
      env.openPdf = .error e →
      (convert_pdf_to_ppt snap env inp outArg .pymupdf dpi st pc tp ad).1 =
        (false, msgFault e)) ∧
    (env.inputExists = true → snap.pymupdfAvail = true → snap.pptxAvail = true →
      env.openPdf = .ok doc → env.loopFaultAfter = some (k, e) →
      k < (pymupdfPageRange st pc doc.pageCount).length →
      (convert_pdf_to_ppt snap env inp outArg .pymupdf dpi st pc tp ad).1 =
        (false, msgFault e)) ∧
    (env.inputExists = true → snap.pymupdfAvail = true → snap.pptxAvail = true →
      env.openPdf = .ok doc → env.loopFaultAfter = none → env.saveFault = some e →
      (convert_pdf_to_ppt snap env inp outArg .pymupdf dpi st pc tp ad).1 =
        (false, msgFault e)) ∧
    (env.inputExists = true → snap.pymupdfAvail = true → snap.pptxAvail = true →
      env.openPdf = .ok doc → env.loopFaultAfter = none → env.saveFault = none →
      env.savedOutputExists = false →
      (convert_pdf_to_ppt snap env inp outArg .pymupdf dpi st pc tp ad).1 =
        (false, msgNoOutput)) ∧
    (env.inputExists = true → env.imagemagickOk = true → snap.pptxAvail = true →
      env.imExitCode ≠ 0 →
      (convert_pdf_to_ppt snap env inp outArg .imagemagick dpi st pc tp ad).1 =
        (false, "PDF转图片失败: " ++ env.imStderr)) ∧
    (env.inputExists = true → env.imagemagickOk = true → snap.pptxAvail = true →
      env.imExitCode = 0 → env.imBuildFault = some e →
      (convert_pdf_to_ppt snap env inp outArg .imagemagick dpi st pc tp ad).1 =
        (false, msgFault e)) ∧
    (env.inputExists = true → env.imagemagickOk = true → snap.pptxAvail = true →
      env.imExitCode = 0 → env.imBuildFault = none → env.savedOutputExists = false →
      (convert_pdf_to_ppt snap env inp outArg .imagemagick dpi st pc tp ad).1 =
        (false, msgNoOutput)) ∧
    (cenv.inputExists = true → outp ≠ "" →
      (cli_main cenv inp (some outp) dpi).1 =
        (if (cli_convert_pdf_to_ppt cenv inp outp dpi).1 then 0 else 1)) := by
  refine ⟨?_, ?_, ?_, ?_, ?_, ?_, ?_, ?_, ?_, ?_⟩
  · intro h1 h2 h3
    simp [convert_pdf_to_ppt, convert_with_pdf2pptx, h1, h2, h3]
  · intro h1 h2 h3 h4
    simp [convert_pdf_to_ppt, convert_with_pdf2pptx, h1, h2, h3, h4]
  · intro h1 h2 h3 h4
    simp [convert_pdf_to_ppt, convert_with_pymupdf, h1, h2, h3, h4]
  · intro h1 h2 h3 h4 h5 h6
    simp [convert_pdf_to_ppt, convert_with_pymupdf, h1, h2, h3, h4, h5, h6]
  · intro h1 h2 h3 h4 h5 h6
    simp [convert_pdf_to_ppt, convert_with_pymupdf, h1, h2, h3, h4, h5, h6]
  · intro h1 h2 h3 h4 h5 h6 h7
    simp [convert_pdf_to_ppt, convert_with_pymupdf, h1, h2, h3, h4, h5, h6, h7]
  · intro h1 h2 h3 h4
    simp [convert_pdf_to_ppt, convert_with_imagemagick, h1, h2, h3, h4]
  · intro h1 h2 h3 h4 h5
    simp [convert_pdf_to_ppt, convert_with_imagemagick, h1, h2, h3, h4, h5]
  · intro h1 h2 h3 h4 h5 h6
    simp [convert_pdf_to_ppt, convert_with_imagemagick, h1, h2, h3, h4, h5, h6]
  · intro h1 h2
    simp [cli_main, h1, h2]

/-- Witness for C4: a raised pdf2pptx fault, a non-zero external-tool exit,
and a CLI run whose conversion fails all normalize as the theorem states. -/
theorem failure_normalized_spec_witness :
    (convert_pdf_to_ppt ⟨true, true, true⟩ { sampleEnv with pdf2pptxFault := some "boom" }
        "in.pdf" (some "out.pptx") .pdf2pptx 300 0 none none false).1 =
      (false, "转换过程中出错: boom") ∧
    (convert_pdf_to_ppt ⟨true, true, true⟩ { sampleEnv with imExitCode := 1, imStderr := "bad pdf" }
        "in.pdf" (some "out.pptx") .imagemagick 300 0 none none false).1 =
      (false, "PDF转图片失败: bad pdf") ∧
    (cli_main { sampleCliEnv with imagemagickBanner := false } "in.pdf"
        (some "out.pptx") 300).1 = 1 := by
  refine ⟨?_, ?_, ?_⟩
  · have h := (failure_normalized_spec ⟨true, true, true⟩
      { sampleEnv with pdf2pptxFault := some "boom" } sampleCliEnv "in.pdf" "out.pptx"
      (some "out.pptx") 300 0 none none false "boom" tenPageDoc 0).1 rfl rfl rfl
    exact h.trans (by decide)
  · have h := (failure_normalized_spec ⟨true, true, true⟩
      { sampleEnv with imExitCode := 1, imStderr := "bad pdf" } sampleCliEnv "in.pdf" "out.pptx"
      (some "out.pptx") 300 0 none none false "boom" tenPageDoc 0).2.2.2.2.2.2.1 rfl rfl rfl
      (by decide)
    exact h.trans (by decide)
  · have h := (failure_normalized_spec ⟨true, true, true⟩ sampleEnv
      { sampleCliEnv with imagemagickBanner := false } "in.pdf" "out.pptx"
      (some "out.pptx") 300 0 none none false "boom" tenPageDoc 0).2.2.2.2.2.2.2.2.2
      rfl (by decide)
    exact h.trans (by decide)

/-- The placeholder writer reports success and appends its write to the trace
whenever the write itself does not fault. -/
theorem cliPlaceholder_ok (env : CliEnv) (inp : String) (t : List CliEffect)
    (h : env.placeholderFault = none) :
    cliPlaceholder env inp t = (true, t ++ [.writePlaceholder inp env.tempDirName]) := by
  simp [cliPlaceholder, h]

/-- C7: in the CLI variant, when the office-suite step is unavailable
(`FileNotFoundError`) or exceeds the fixed 60-second timeout, the conversion
falls back to writing the plain-text placeholder (recording the input PDF and
the temporary directory holding the intermediate images) at the output path
and still reports success; `main` then exits 0. The `soffice` attempt is made
with the fixed 60-second bound. -/
theorem office_fallback_spec (cenv : CliEnv) (inp outp : String) (dpi : Nat) :
    cenv.imagemagickBanner = true → cenv.convExitCode = 0 → cenv.imagesProduced ≠ 0 →
    (cenv.sofficeOutcome = .notFound ∨ cenv.sofficeOutcome = .timedOut) →
    cenv.placeholderFault = none →
    ((cli_convert_pdf_to_ppt cenv inp outp dpi).1 = true ∧
     CliEffect.writePlaceholder inp cenv.tempDirName ∈
       (cli_convert_pdf_to_ppt cenv inp outp dpi).2 ∧
     CliEffect.runSoffice ["soffice", "--headless", "--convert-to", "pptx",
        "--outdir", dirName outp, joinPath cenv.tempDirName "slides.html"] 60 ∈
       (cli_convert_pdf_to_ppt cenv inp outp dpi).2 ∧
     (cenv.inputExists = true → outp ≠ "" → (cli_main cenv inp (some outp) dpi).1 = 0)) := by
  intro h1 h2 h3 hso h5
  have hres : (cli_convert_pdf_to_ppt cenv inp outp dpi).1 = true := by
    rcases hso with hso | hso <;>
      simp [cli_convert_pdf_to_ppt, cliPlaceholder_ok _ _ _ h5, h1, h2, h3, hso]
  refine ⟨hres, ?_, ?_, ?_⟩
  · rcases hso with hso | hso <;>
      simp [cli_convert_pdf_to_ppt, cliPlaceholder_ok _ _ _ h5, h1, h2, h3, hso]
  · rcases hso with hso | hso <;>
      simp [cli_convert_pdf_to_ppt, cliPlaceholder_ok _ _ _ h5, h1, h2, h3, hso]
  · intro h6 h7
    simp [cli_main, h6, h7, hres]

/-- Witness for C7: the sample CLI environment, whose soffice step times out,
still converts "successfully" via the placeholder and exits 0. -/
theorem office_fallback_spec_witness :
    sampleCliEnv.sofficeOutcome = SofficeOutcome.timedOut ∧
    (cli_convert_pdf_to_ppt sampleCliEnv "in.pdf" "out.pptx" 300).1 = true ∧
    CliEffect.writePlaceholder "in.pdf" sampleCliEnv.tempDirName ∈
      (cli_convert_pdf_to_ppt sampleCliEnv "in.pdf" "out.pptx" 300).2 ∧
    (cli_main sampleCliEnv "in.pdf" (some "out.pptx") 300).1 = 0 := by
  have h := office_fallback_spec sampleCliEnv "in.pdf" "out.pptx" 300 rfl rfl
    (by decide) (Or.inr rfl) rfl
  exact ⟨rfl, h.1, h.2.1, h.2.2.2 rfl (by decide)⟩

/-- C9: the CLI variant never removes the temporary directory holding the
intermediate images — no `removeTempDir` effect ever appears in a
`convert_pdf_to_ppt` or `main` trace, while the directory is created whenever
the ImageMagick probe succeeds — so the images remain retrievable after the
call returns, whatever the outcome. -/
theorem cli_temp_dir_never_removed (cenv : CliEnv) (inp : String) (dpi : Nat) :
    (∀ (outp : String) (d : String),
      CliEffect.removeTempDir d ∉ (cli_convert_pdf_to_ppt cenv inp outp dpi).2) ∧
    (∀ (outp : String), cenv.imagemagickBanner = true →
      CliEffect.makeTempDir cenv.tempDirName ∈
        (cli_convert_pdf_to_ppt cenv inp outp dpi).2) ∧
    (∀ (outArg : Option String) (d : String),
      CliEffect.removeTempDir d ∉ (cli_main cenv inp outArg dpi).2) := by
  have main : ∀ (outp d : String),
      CliEffect.removeTempDir d ∉ (cli_convert_pdf_to_ppt cenv inp outp dpi).2 := by
    intro outp d
    cases hso : cenv.sofficeOutcome <;> cases hpf : cenv.placeholderFault <;>
      simp only [cli_convert_pdf_to_ppt, cliPlaceholder, hso, hpf] <;>
      split_ifs <;> simp_all
  refine ⟨main, ?_, ?_⟩
  · intro outp h1
    cases hso : cenv.sofficeOutcome <;> cases hpf : cenv.placeholderFault <;>
      simp only [cli_convert_pdf_to_ppt, cliPlaceholder, hso, hpf, h1] <;>
      split_ifs <;> simp_all
  · intro outArg d
    by_cases hin : cenv.inputExists = true
    · simp only [cli_main, hin, Bool.not_true, Bool.false_eq_true, if_false]
      exact main _ d
    · have hin2 : cenv.inputExists = false := by
        cases hx : cenv.inputExists
        · rfl
        · exact absurd hx hin
      simp [cli_main, hin2]

/-- Witness for C9: in the sample CLI environment the temporary directory is
created and never removed. -/
theorem cli_temp_dir_never_removed_witness :
    sampleCliEnv.imagemagickBanner = true ∧
    CliEffect.makeTempDir sampleCliEnv.tempDirName ∈
      (cli_convert_pdf_to_ppt sampleCliEnv "in.pdf" "out.pptx" 300).2 ∧
    CliEffect.removeTempDir "/tmp/t" ∉
      (cli_convert_pdf_to_ppt sampleCliEnv "in.pdf" "out.pptx" 300).2 :=
  ⟨rfl, (cli_temp_dir_never_removed sampleCliEnv "in.pdf" 300).2.1 "out.pptx" rfl,
   (cli_temp_dir_never_removed sampleCliEnv "in.pdf" 300).1 "out.pptx" "/tmp/t"⟩

end PdfPpt
